import Mathlib

/-
Shallow embedding of the simulation core of the 3D space-shooter repository.

Source files embedded:
  * src/lib/gameUtils.ts   — GameEntity / PowerUp / GameState data model,
                             ObjectPool, checkCollision
  * the game component file (unnamed part_000) — PlayerController's
    shootBullet, the per-frame useFrame collision/wave logic, the
    Game3D session state (initial state, togglePause).

Conventions of the embedding:
  * JavaScript numbers that only ever hold integers (health, score, wave,
    Date.now() timestamps in milliseconds) are ℤ; continuous quantities
    (positions, radii, per-frame delta seconds) are ℚ.
  * THREE.Mesh visual handles, the scene graph, explosions and audio cues
    are renderer/audio collaborator side effects with no bearing on the
    simulation state, so they are omitted from the embedded records.
  * React's setState semantics: inside one useFrame callback the prop
    `gameState` is a frozen snapshot; every onGameStateChange call builds
    its partial update FROM THAT SNAPSHOT and the updates are merged in
    call order into the next state.  The embedding therefore threads a
    pair (snap, gs): `snap` is the frame-start snapshot all reads use,
    `gs` is the accumulated pending state the partial updates merge into.
  * Mutable entity objects shared by the collision loops are modelled by
    threading the updated lists/records through folds in source order.
-/

namespace SpaceShooter

/-- Status union of GameState in gameUtils.ts: 'menu' | 'playing' | 'paused' | 'gameover'. -/
inductive Status where
  | menu
  | playing
  | paused
  | gameover
deriving DecidableEq

/-- Category union of GameEntity.type: 'player' | 'enemy' | 'bullet' | 'powerup'. -/
inductive EntityType where
  | player
  | enemy
  | bullet
  | powerup
deriving DecidableEq

/-- Kind union of PowerUp.type: 'shield' | 'weapon' | 'health'. -/
inductive PowerUpType where
  | shield
  | weapon
  | health
deriving DecidableEq

/-- THREE.Vector3, restricted to the componentwise operations the game uses. -/
structure Vec3 where
  x : ℚ
  y : ℚ
  z : ℚ
deriving DecidableEq

/-- GameEntity from gameUtils.ts.  The `mesh` field (renderer-owned visual
handle) is dropped from the embedding; `position` aliases the mesh position
in the source and is kept as the single authoritative position here. -/
structure GameEntity where
  id : String
  position : Vec3
  velocity : Vec3
  health : ℤ
  maxHealth : ℤ
  type : EntityType
  active : Bool
  radius : ℚ
deriving DecidableEq

/-- PowerUp (the timed buff record) from gameUtils.ts.  `startTime` is a
Date.now() millisecond timestamp; `duration` is in seconds. -/
structure PowerUp where
  id : String
  type : PowerUpType
  duration : ℚ
  active : Bool
  startTime : ℤ
deriving DecidableEq

/-- GameState from gameUtils.ts. -/
structure GameState where
  status : Status
  score : ℤ
  level : ℤ
  health : ℤ
  maxHealth : ℤ
  shield : ℤ
  maxShield : ℤ
  lives : ℤ
  wave : ℤ
  enemiesRemaining : ℤ
  activePowerUps : List PowerUp
deriving DecidableEq

/-- The initial session state of Game3D (useState initializer). -/
def initialGameState : GameState :=
  { status := Status.menu
    score := 0
    level := 1
    health := 10
    maxHealth := 10
    shield := 0
    maxShield := 5
    lives := 3
    wave := 1
    enemiesRemaining := 5
    activePowerUps := [] }

/-- Game3D.togglePause: `status: prev.status === 'playing' ? 'paused' : 'playing'`,
all other fields spread unchanged. -/
def togglePause (prev : GameState) : GameState :=
  { prev with status := if prev.status = Status.playing then Status.paused else Status.playing }

/-- Squared Euclidean distance between two Vec3 (the square of
THREE.Vector3.distanceTo). -/
def dist2 (a b : Vec3) : ℚ :=
  (a.x - b.x) ^ 2 + (a.y - b.y) ^ 2 + (a.z - b.z) ^ 2

/-- checkCollision from gameUtils.ts:
`distanceTo(b.position) < (a.radius + b.radius)`.
The source compares the real Euclidean distance; to stay inside ℚ the
embedding uses the equivalent squared comparison guarded by the sign of the
radius sum.  The equivalence with the source's real-valued comparison is
proved in the C9 theorem below. -/
def checkCollision (entity1 entity2 : GameEntity) : Bool :=
  decide (0 ≤ entity1.radius + entity2.radius ∧
    dist2 entity1.position entity2.position < (entity1.radius + entity2.radius) ^ 2)

/-- ObjectPool from gameUtils.ts.  The construction factory is modelled as a
pure function of the running construction counter (the spec's "construction
counter"): the n-th factory invocation yields `createFn n`.  `pool` is kept
top-of-stack-first, so JavaScript's `pool.pop()` is `head` and
`pool.push(x)` is `cons`. -/
structure ObjectPool (T : Type) where
  pool : List T
  createFn : Nat → T
  counter : Nat

/-- The ObjectPool constructor: pushes `initialSize` factory-built items. -/
def ObjectPool.init (T : Type) (createFn : Nat → T) (initialSize : Nat) : ObjectPool T :=
  { pool := ((List.range initialSize).map createFn).reverse
    createFn := createFn
    counter := initialSize }

/-- ObjectPool.get: `return this.pool.pop() || this.createFn()`. -/
def ObjectPool.get {T : Type} (p : ObjectPool T) : T × ObjectPool T :=
  match p.pool with
  | x :: rest => (x, { p with pool := rest })
  | [] => (p.createFn p.counter, { p with counter := p.counter + 1 })

/-- ObjectPool.release: `this.pool.push(item)`. -/
def ObjectPool.release {T : Type} (p : ObjectPool T) (item : T) : ObjectPool T :=
  { p with pool := item :: p.pool }

/-- N successive acquire (get) calls, collecting the acquired handles. -/
def acquireN {T : Type} : Nat → ObjectPool T → List T × ObjectPool T
  | 0, p => ([], p)
  | n + 1, p =>
    let r := p.get
    let rest := acquireN n r.2
    (r.1 :: rest.1, rest.2)

/-- Release every handle in the list back to the pool, in order. -/
def releaseList {T : Type} (p : ObjectPool T) (handles : List T) : ObjectPool T :=
  handles.foldl (fun q h => q.release h) p

/-! ## PlayerController: entity creation -/

/-- The bullet entity built by shootBullet: position is the player's
position with `z += 1`, velocity `(0, 0, 20)`. -/
def mkBullet (now : ℤ) (playerPos : Vec3) : GameEntity :=
  { id := "bullet-" ++ toString now
    position := { playerPos with z := playerPos.z + 1 }
    velocity := ⟨0, 0, 20⟩
    health := 1
    maxHealth := 1
    type := EntityType.bullet
    active := true
    radius := 1 / 10 }

/-- The enemy entity built by spawnEnemy.  Its id (Date.now + Math.random),
spawn position and randomized velocity are parameters of the embedding. -/
def mkEnemy (id : String) (pos vel : Vec3) : GameEntity :=
  { id := id
    position := pos
    velocity := vel
    health := 3
    maxHealth := 3
    type := EntityType.enemy
    active := true
    radius := 1 / 2 }

/-- The power-up pickup entity built by spawnPowerUp (randomized position is
a parameter). -/
def mkPowerUpEntity (id : String) (pos : Vec3) : GameEntity :=
  { id := id
    position := pos
    velocity := ⟨0, 0, 3⟩
    health := 1
    maxHealth := 1
    type := EntityType.powerup
    active := true
    radius := 3 / 10 }

/-- The transient playerEntity record built at the top of the collision
section of useFrame, with health read from the gameState snapshot. -/
def mkPlayerEntity (snap : GameState) (pos : Vec3) : GameEntity :=
  { id := "player"
    position := pos
    velocity := ⟨0, 0, 0⟩
    health := snap.health
    maxHealth := snap.maxHealth
    type := EntityType.player
    active := true
    radius := 2 / 5 }

/-- The shield PowerUp effect granted on a player/power-up collision:
duration 10 s, timestamped with Date.now(). -/
def mkShieldPowerUp (id : String) (now : ℤ) : PowerUp :=
  { id := id
    type := PowerUpType.shield
    duration := 10
    active := true
    startTime := now }

/-! ## PlayerController: shootBullet -/

/-- The state shootBullet reads and writes: the lastShotRef timestamp, the
initialization status of playerRef / bulletPoolRef, the player position and
the bulletsRef store.  (The scene add and the audio cue are renderer/audio
side effects, omitted.) -/
structure ShootState where
  lastShot : ℤ
  playerInit : Bool
  poolInit : Bool
  playerPos : Vec3
  bullets : List GameEntity
deriving DecidableEq

/-- shootBullet, called with `now = Date.now()`.  Mirrors the source order:
the rate-limit early return comes first, then the lastShotRef write, then
the missing-reference early return, then the bullet construction and push.
The boolean result records whether a bullet was created. -/
def shootBullet (now : ℤ) (s : ShootState) : ShootState × Bool :=
  if now - s.lastShot < 150 then (s, false)
  else
    let s1 := { s with lastShot := now }
    if s1.playerInit && s1.poolInit then
      ({ s1 with bullets := s1.bullets ++ [mkBullet now s1.playerPos] }, true)
    else (s1, false)

/-- A sequence of fire requests at the given Date.now() timestamps. -/
def fireSeq (s : ShootState) (times : List ℤ) : ShootState :=
  times.foldl (fun st t => (shootBullet t st).1) s

/-- A fully initialized shoot state with no shots fired yet (lastShotRef
starts at 0 in the source). -/
def initShootState : ShootState :=
  { lastShot := 0
    playerInit := true
    poolInit := true
    playerPos := ⟨0, 0, 0⟩
    bullets := [] }

/-! ## PlayerController: useFrame collision resolution

The `snap` argument of each loop is the frozen `gameState` prop of the
frame; `gs` is the pending session state being accumulated by the
onGameStateChange partial updates (see the header comment). -/

/-- The body of the bullet-enemy collision branch (lines: `enemy.health -= 1;
bullet.active = false; ... if (enemy.health <= 0) {score/enemiesRemaining
update, enemy.active = false, pool release}`).  Returns the updated bullet,
enemy and pending state. -/
def bulletEnemyHit (snap : GameState) (b e : GameEntity) (gs : GameState) :
    GameEntity × GameEntity × GameState :=
  let e1 := { e with health := e.health - 1 }
  let b1 := { b with active := false }
  if e1.health ≤ 0 then
    (b1, { e1 with active := false },
      { gs with
        score := snap.score + 100
        enemiesRemaining := snap.enemiesRemaining - 1 })
  else
    (b1, e1, gs)

/-- The effect on a single enemy of being found colliding with a bullet
(the enemy component of bulletEnemyHit). -/
def enemyAfterHit (e : GameEntity) : GameEntity :=
  let e1 := { e with health := e.health - 1 }
  if e1.health ≤ 0 then { e1 with active := false } else e1

/-- The inner `enemiesRef.current.forEach` of the bullet-enemy collision
loop, for one bullet: every enemy in the store is tested with
checkCollision, with no active-flag filtering, exactly as in the source. -/
def bulletVsEnemies (snap : GameState) (b : GameEntity) :
    List GameEntity → GameState → GameEntity × List GameEntity × GameState
  | [], gs => (b, [], gs)
  | e :: rest, gs =>
    if checkCollision b e then
      let hit := bulletEnemyHit snap b e gs
      let r := bulletVsEnemies snap hit.1 rest hit.2.2
      (r.1, hit.2.1 :: r.2.1, r.2.2)
    else
      let r := bulletVsEnemies snap b rest gs
      (r.1, e :: r.2.1, r.2.2)

/-- The outer `bulletsRef.current.forEach` of the bullet-enemy collision
loop: enemy mutations made while processing one bullet are visible to the
next bullet (the enemy objects are shared). -/
def bulletsVsEnemies (snap : GameState) :
    List GameEntity → List GameEntity → GameState →
      List GameEntity × List GameEntity × GameState
  | [], enemies, gs => ([], enemies, gs)
  | b :: rest, enemies, gs =>
    let r1 := bulletVsEnemies snap b enemies gs
    let r2 := bulletsVsEnemies snap rest r1.2.1 r1.2.2
    (r1.1 :: r2.1, r2.2.1, r2.2.2)

/-- The body of the player-enemy collision branch: health partial update
`Math.max(0, gameState.health - 1)` (computed from the snapshot), enemy
deactivation, then the gameover check `if (gameState.health <= 1)` — note
the check reads the PRE-decrement snapshot health. -/
def resolvePlayerEnemyHit (snap : GameState) (e : GameEntity) (gs : GameState) :
    GameEntity × GameState :=
  let gs1 := { gs with health := max 0 (snap.health - 1) }
  let e1 := { e with active := false }
  let gs2 := if snap.health ≤ 1 then { gs1 with status := Status.gameover } else gs1
  (e1, gs2)

/-- The `enemiesRef.current.forEach` player-enemy collision loop. -/
def playerEnemyCollisions (snap : GameState) (player : GameEntity) :
    List GameEntity → GameState → List GameEntity × GameState
  | [], gs => ([], gs)
  | e :: rest, gs =>
    if checkCollision player e then
      let hit := resolvePlayerEnemyHit snap e gs
      let r := playerEnemyCollisions snap player rest hit.2
      (hit.1 :: r.1, r.2)
    else
      let r := playerEnemyCollisions snap player rest gs
      (e :: r.1, r.2)

/-- The partial update issued on a player/power-up collision: both the
activePowerUps list and the healed health are computed from the snapshot,
so within one frame each grant overwrites the previous one's list. -/
def powerUpGrant (snap : GameState) (now : ℤ) (p : GameEntity) (gs : GameState) : GameState :=
  { gs with
    activePowerUps := snap.activePowerUps ++ [mkShieldPowerUp p.id now]
    health := min snap.maxHealth (snap.health + 1) }

/-- The `powerUpsRef.current.forEach` player/power-up loop.  The source
splices the current element out of the array it is iterating, so after a
collision JavaScript's forEach skips the element that slid into the removed
index: on a hit the head of the remaining list is left unvisited.  Returns
the power-up store after the frame and the pending state. -/
def playerPowerUpCollisions (snap : GameState) (now : ℤ) (player : GameEntity) :
    List GameEntity → GameState → List GameEntity × GameState
  | [], gs => ([], gs)
  | p :: rest, gs =>
    if checkCollision player p then
      let gs1 := powerUpGrant snap now p gs
      match rest with
      | [] => ([], gs1)
      | q :: rest' =>
        let r := playerPowerUpCollisions snap now player rest' gs1
        (q :: r.1, r.2)
    else
      let r := playerPowerUpCollisions snap now player rest gs
      (p :: r.1, r.2)

/-! ## PlayerController: wave progression -/

/-- The wave-progression block at the end of useFrame.  `enemyCount` is
`enemiesRef.current.length` (the collision loops never remove from that
array, so it is the post-movement-filter store size); the condition and all
values in the partial update read the snapshot.  Returns the pending state
and the new waveTimerRef value. -/
def waveStep (snap : GameState) (enemyCount : Nat) (waveTimer delta : ℚ)
    (gs : GameState) : GameState × ℚ :=
  if enemyCount = 0 ∧ snap.enemiesRemaining ≤ 0 then
    let t := waveTimer + delta
    if 3 < t then
      ({ gs with
          wave := snap.wave + 1
          level := snap.level + 1
          enemiesRemaining := 5 + snap.wave }, 0)
    else (gs, t)
  else (gs, waveTimer)

/-! ## PlayerController: the session-state effect of one frame

Movement, entity position updates, the enemy micro-AI and the spawn timers
never write the session state, so the GameState effect of one useFrame call
while playing is exactly the composition, in source order, of the three
collision loops and the wave block below.  The entity-list arguments are
the stores after the frame's update/filter pass. -/

/-- The accumulated GameState partial-update effect of one playing frame,
together with the surviving power-up store, collision-updated bullet/enemy
stores and the new wave timer. -/
def frameGsUpdate (snap : GameState) (playerPos : Vec3)
    (bullets enemies powerUps : List GameEntity)
    (delta : ℚ) (now : ℤ) (waveTimer : ℚ) :
    GameState × ℚ :=
  let player := mkPlayerEntity snap playerPos
  let r1 := bulletsVsEnemies snap bullets enemies snap
  let r2 := playerEnemyCollisions snap player r1.2.1 r1.2.2
  let r3 := playerPowerUpCollisions snap now player powerUps r2.2
  waveStep snap enemies.length waveTimer delta r3.2

/-! ## Helper lemmas -/

/-- Squared distance is nonnegative. -/
theorem dist2_nonneg (a b : Vec3) : 0 ≤ dist2 a b := by
  unfold dist2
  positivity

/-- Squared distance is symmetric. -/
theorem dist2_comm (a b : Vec3) : dist2 a b = dist2 b a := by
  unfold dist2
  ring

/-! ## Claim theorems -/

/-- C4, counterexample: togglePause called while the status is `menu`
does not leave the status unchanged — it sets it to `playing` (the source
ternary sends every non-playing status to `playing`). -/
theorem claimC4_counterexample :
    initialGameState.status = Status.menu ∧
    (togglePause initialGameState).status = Status.playing ∧
    (togglePause initialGameState).status ≠ Status.menu := by
  refine ⟨rfl, rfl, ?_⟩
  decide

/-- C4 (amended): togglePause maps `playing` to `paused` and every other
status — `paused`, but also `menu` and `gameover` — to `playing`, leaving
all non-status fields of the session state unchanged. -/
theorem togglePause_spec (prev : GameState) :
    (togglePause prev).status =
      (if prev.status = Status.playing then Status.paused else Status.playing) ∧
    (togglePause prev).score = prev.score ∧
    (togglePause prev).level = prev.level ∧
    (togglePause prev).health = prev.health ∧
    (togglePause prev).maxHealth = prev.maxHealth ∧
    (togglePause prev).wave = prev.wave ∧
    (togglePause prev).enemiesRemaining = prev.enemiesRemaining ∧
    (togglePause prev).activePowerUps = prev.activePowerUps := by
  unfold togglePause
  refine ⟨rfl, rfl, rfl, rfl, rfl, rfl, rfl, rfl⟩

/-- C9: checkCollision returns true exactly when the Euclidean distance
between the two positions is strictly smaller than the sum of the radii
(the source's `distanceTo < radius sum` comparison), and it is symmetric.
Purity holds by construction: the embedding is a function of its arguments
that returns a Bool, and the argument records are untouched. -/
theorem checkCollision_spec (a b : GameEntity) :
    (checkCollision a b = true ↔
      Real.sqrt ((dist2 a.position b.position : ℚ) : ℝ) <
        ((a.radius : ℚ) : ℝ) + ((b.radius : ℚ) : ℝ)) ∧
    checkCollision a b = checkCollision b a := by
  constructor
  · rw [checkCollision, decide_eq_true_iff]
    by_cases hs : (0 : ℝ) < ((a.radius : ℚ) : ℝ) + ((b.radius : ℚ) : ℝ)
    · rw [Real.sqrt_lt' hs]
      have hsq : (0 : ℚ) ≤ a.radius + b.radius := by
        have := le_of_lt hs
        push_cast at this
        exact_mod_cast this
      constructor
      · rintro ⟨-, h2⟩
        exact_mod_cast h2
      · intro h
        refine ⟨hsq, ?_⟩
        push_cast at h
        exact_mod_cast h
    · have hsq : a.radius + b.radius ≤ 0 := by
        have := le_of_not_lt hs
        push_cast at this
        exact_mod_cast this
      constructor
      · rintro ⟨h0, h2⟩
        have hz : a.radius + b.radius = 0 := le_antisymm hsq h0
        rw [hz] at h2
        have := dist2_nonneg a.position b.position
        norm_num at h2
        exact absurd h2 (not_lt.mpr this)
      · intro h
        exfalso
        have h1 := Real.sqrt_nonneg ((dist2 a.position b.position : ℚ) : ℝ)
        have h2 : ((a.radius : ℚ) : ℝ) + ((b.radius : ℚ) : ℝ) ≤ 0 := by
          exact_mod_cast hsq
        linarith
  · unfold checkCollision
    rw [add_comm a.radius b.radius, dist2_comm a.position b.position]

/-- ObjectPool.get leaves createFn unchanged, pops when the free list is
nonempty and constructs (incrementing the counter) when it is empty. -/
theorem ObjectPool.get_spec {T : Type} (p : ObjectPool T) :
    (p.get).2.counter = p.counter + (if p.pool.length = 0 then 1 else 0) ∧
    (p.get).2.pool.length = p.pool.length - 1 := by
  unfold ObjectPool.get
  cases p.pool with
  | nil => simp
  | cons x rest => simp

/-- Counter, free-list length and acquired-handle count after n get calls. -/
theorem acquireN_spec {T : Type} (n : Nat) :
    ∀ p : ObjectPool T,
      (acquireN n p).2.counter = p.counter + (n - p.pool.length) ∧
      (acquireN n p).2.pool.length = p.pool.length - n ∧
      (acquireN n p).1.length = n := by
  induction n with
  | zero => intro p; simp [acquireN]
  | succ n ih =>
    intro p
    cases hp : p.pool with
    | nil =>
      have h := ih { p with counter := p.counter + 1 }
      rw [hp] at h
      obtain ⟨h1, h2, h3⟩ := h
      simp only [List.length_nil] at h1 h2 h3
      simp only [acquireN, ObjectPool.get, hp, List.length_cons, List.length_nil]
      refine ⟨by omega, by omega, by omega⟩
    | cons x rest =>
      have h := ih { p with pool := rest }
      obtain ⟨h1, h2, h3⟩ := h
      simp only at h1 h2 h3
      simp only [acquireN, ObjectPool.get, hp, List.length_cons]
      refine ⟨by omega, by omega, by omega⟩

/-- Releasing a list of handles adds them all to the free list and never
touches the construction counter. -/
theorem releaseList_spec {T : Type} (handles : List T) :
    ∀ p : ObjectPool T,
      (releaseList p handles).counter = p.counter ∧
      (releaseList p handles).pool.length = p.pool.length + handles.length := by
  induction handles with
  | nil => intro p; simp [releaseList]
  | cons h t ih =>
    intro p
    have := ih (p.release h)
    constructor
    · rw [show releaseList p (h :: t) = releaseList (p.release h) t from rfl, this.1]
      rfl
    · rw [show releaseList p (h :: t) = releaseList (p.release h) t from rfl, this.2]
      simp [ObjectPool.release]
      omega

/-- C8: starting from a freshly constructed pool (any initial size), N
acquires followed by releasing the N acquired handles followed by N further
acquires invoke the factory at most N times beyond the constructor's
pre-fill, and the second batch of acquires constructs nothing at all (the
counter does not move). -/
theorem objectPool_reacquire_no_construction (T : Type) (createFn : Nat → T) (s N : Nat) :
    (acquireN N (releaseList (acquireN N (ObjectPool.init T createFn s)).2
        (acquireN N (ObjectPool.init T createFn s)).1)).2.counter =
      (releaseList (acquireN N (ObjectPool.init T createFn s)).2
        (acquireN N (ObjectPool.init T createFn s)).1).counter ∧
    (acquireN N (releaseList (acquireN N (ObjectPool.init T createFn s)).2
        (acquireN N (ObjectPool.init T createFn s)).1)).2.counter -
      (ObjectPool.init T createFn s).counter ≤ N := by
  have hinit_counter : (ObjectPool.init T createFn s).counter = s := rfl
  have hinit_len : (ObjectPool.init T createFn s).pool.length = s := by
    simp [ObjectPool.init]
  have h1 := acquireN_spec N (ObjectPool.init T createFn s)
  have h2 := releaseList_spec (acquireN N (ObjectPool.init T createFn s)).1
    (acquireN N (ObjectPool.init T createFn s)).2
  have h3 := acquireN_spec N (releaseList (acquireN N (ObjectPool.init T createFn s)).2
    (acquireN N (ObjectPool.init T createFn s)).1)
  constructor
  · rw [h3.1]
    have : (releaseList (acquireN N (ObjectPool.init T createFn s)).2
        (acquireN N (ObjectPool.init T createFn s)).1).pool.length ≥ N := by
      rw [h2.2, h1.2.1, h1.2.2]
      omega
    omega
  · rw [h3.1, h2.1, h1.1, hinit_counter, hinit_len]
    omega

/-- C6: with the player reference and the bullet pool initialized, a fire
request succeeds iff at least 150 ms elapsed since the last timer reset; on
success it sets the timer to `now` and appends exactly one bullet, placed
at the player position offset forward by one unit with velocity (0,0,20);
a rejected request leaves the state untouched.  The two concrete request
sequences of the spec behave as claimed: requests 100 ms apart create one
bullet, requests 151 ms apart create two. -/
theorem shootBullet_spec (now : ℤ) (s : ShootState)
    (hp : s.playerInit = true) (hq : s.poolInit = true) :
    ((shootBullet now s).2 = true ↔ 150 ≤ now - s.lastShot) ∧
    (150 ≤ now - s.lastShot →
      (shootBullet now s).1.lastShot = now ∧
      (shootBullet now s).1.bullets = s.bullets ++ [mkBullet now s.playerPos]) ∧
    (now - s.lastShot < 150 → (shootBullet now s).1 = s) ∧
    (mkBullet now s.playerPos).position =
      { s.playerPos with z := s.playerPos.z + 1 } ∧
    (mkBullet now s.playerPos).velocity = (⟨0, 0, 20⟩ : Vec3) ∧
    (fireSeq initShootState [1000, 1100]).bullets.length = 1 ∧
    (fireSeq initShootState [1000, 1151]).bullets.length = 2 := by
  have key : shootBullet now s =
      if now - s.lastShot < 150 then (s, false)
      else
        ({ s with
            lastShot := now,
            bullets := s.bullets ++ [mkBullet now s.playerPos] }, true) := by
    simp only [shootBullet]
    by_cases h : now - s.lastShot < 150
    · rw [if_pos h, if_pos h]
    · rw [if_neg h, if_neg h]
      simp [hp, hq]
  refine ⟨?_, ?_, ?_, rfl, rfl, by decide, by decide⟩
  · rw [key]
    by_cases h : now - s.lastShot < 150
    · rw [if_pos h]
      simp only [Bool.false_eq_true, false_iff]
      omega
    · rw [if_neg h]
      simp only [true_iff]
      omega
  · intro h
    have h' : ¬ now - s.lastShot < 150 := by omega
    rw [key, if_neg h']
    exact ⟨rfl, rfl⟩
  · intro h
    rw [key, if_pos h]

/-- Witness for C6 at a concrete input: the initialized fresh shoot state
and a request at t = 1000 ms. -/
theorem shootBullet_spec_witness :
    initShootState.playerInit = true ∧ initShootState.poolInit = true ∧
    (((shootBullet 1000 initShootState).2 = true ↔
        150 ≤ (1000 : ℤ) - initShootState.lastShot) ∧
      (150 ≤ (1000 : ℤ) - initShootState.lastShot →
        (shootBullet 1000 initShootState).1.lastShot = 1000 ∧
        (shootBullet 1000 initShootState).1.bullets =
          initShootState.bullets ++ [mkBullet 1000 initShootState.playerPos]) ∧
      ((1000 : ℤ) - initShootState.lastShot < 150 →
        (shootBullet 1000 initShootState).1 = initShootState) ∧
      (mkBullet 1000 initShootState.playerPos).position =
        { initShootState.playerPos with z := initShootState.playerPos.z + 1 } ∧
      (mkBullet 1000 initShootState.playerPos).velocity = (⟨0, 0, 20⟩ : Vec3) ∧
      (fireSeq initShootState [1000, 1100]).bullets.length = 1 ∧
      (fireSeq initShootState [1000, 1151]).bullets.length = 2) :=
  ⟨rfl, rfl, shootBullet_spec 1000 initShootState rfl rfl⟩

/-- A shoot state whose bullet pool reference is still null (used as the
concrete C10 witness input). -/
def uninitPoolShootState : ShootState :=
  { lastShot := 0
    playerInit := true
    poolInit := false
    playerPos := ⟨0, 0, 0⟩
    bullets := [] }

/-- C10: when the rate limit passes but the player reference or the bullet
pool is missing, shootBullet still overwrites lastShot with `now` and
returns with no bullet created, so a second request less than 150 ms later
is rejected by the rate limit even though no bullet was ever spawned. -/
theorem shootBullet_failure_overwrites_timer (now now2 : ℤ) (s : ShootState)
    (h1 : 150 ≤ now - s.lastShot)
    (h2 : s.playerInit = false ∨ s.poolInit = false)
    (h3 : now2 - now < 150) :
    (shootBullet now s).2 = false ∧
    (shootBullet now s).1.bullets = s.bullets ∧
    (shootBullet now s).1.lastShot = now ∧
    (shootBullet now2 (shootBullet now s).1).2 = false ∧
    (shootBullet now2 (shootBullet now s).1).1 = (shootBullet now s).1 := by
  have hn : ¬ now - s.lastShot < 150 := by omega
  have hinit : (({ s with lastShot := now } : ShootState).playerInit &&
      ({ s with lastShot := now } : ShootState).poolInit) = false := by
    rcases h2 with h | h <;> simp [h]
  have key : shootBullet now s = ({ s with lastShot := now }, false) := by
    simp only [shootBullet]
    rw [if_neg hn]
    simp [hinit]
  have key2 : shootBullet now2 ({ s with lastShot := now } : ShootState) =
      ({ s with lastShot := now }, false) := by
    simp only [shootBullet]
    rw [if_pos (show now2 - ({ s with lastShot := now } : ShootState).lastShot < 150 from h3)]
  refine ⟨?_, ?_, ?_, ?_, ?_⟩
  · rw [key]
  · rw [key]
  · rw [key]
  · rw [key, key2]
  · rw [key, key2]

/-- Witness for C10: a first request at t = 1000 against a state with no
bullet pool, a second request at t = 1100. -/
theorem shootBullet_failure_overwrites_timer_witness :
    150 ≤ (1000 : ℤ) - uninitPoolShootState.lastShot ∧
    (uninitPoolShootState.playerInit = false ∨ uninitPoolShootState.poolInit = false) ∧
    (1100 : ℤ) - 1000 < 150 ∧
    ((shootBullet 1000 uninitPoolShootState).2 = false ∧
      (shootBullet 1000 uninitPoolShootState).1.bullets = uninitPoolShootState.bullets ∧
      (shootBullet 1000 uninitPoolShootState).1.lastShot = 1000 ∧
      (shootBullet 1100 (shootBullet 1000 uninitPoolShootState).1).2 = false ∧
      (shootBullet 1100 (shootBullet 1000 uninitPoolShootState).1).1 =
        (shootBullet 1000 uninitPoolShootState).1) :=
  ⟨by decide, Or.inr rfl, by decide,
    shootBullet_failure_overwrites_timer 1000 1100 uninitPoolShootState
      (by decide) (Or.inr rfl) (by decide)⟩

/-! ## C1: player-enemy collision resolution -/

/-- A playing snapshot with health 2 (the input that separates the claim's
post-decrement gameover condition from the code's pre-decrement check). -/
def snapC1 : GameState :=
  { initialGameState with
      status := Status.playing,
      health := 2 }

/-- An enemy sitting exactly on the player (distance 0 < 0.4 + 0.5). -/
def enemyC1 : GameEntity := mkEnemy "enemy-c1" ⟨0, 0, 0⟩ ⟨0, 0, 5⟩

/-- C1, counterexample: with snapshot health 2 a player-enemy collision
leaves post-decrement health 1 (which is ≤ 1), yet the status does NOT
transition to gameover, because the source gates the transition on the
pre-decrement snapshot health (`gameState.health <= 1`), which is 2. -/
theorem claimC1_counterexample :
    checkCollision (mkPlayerEntity snapC1 ⟨0, 0, 0⟩) enemyC1 = true ∧
    snapC1.status = Status.playing ∧
    (playerEnemyCollisions snapC1 (mkPlayerEntity snapC1 ⟨0, 0, 0⟩) [enemyC1] snapC1).2.health ≤ 1 ∧
    (playerEnemyCollisions snapC1 (mkPlayerEntity snapC1 ⟨0, 0, 0⟩) [enemyC1] snapC1).2.status ≠
      Status.gameover := by
  have hc : checkCollision (mkPlayerEntity snapC1 ⟨0, 0, 0⟩) enemyC1 = true := by
    simp only [checkCollision, decide_eq_true_eq, mkPlayerEntity, enemyC1, mkEnemy, dist2]
    norm_num
  refine ⟨hc, rfl, ?_, ?_⟩
  · simp only [playerEnemyCollisions, hc, if_true, resolvePlayerEnemyHit]
    norm_num [snapC1, initialGameState]
  · simp only [playerEnemyCollisions, hc, if_true, resolvePlayerEnemyHit]
    norm_num [snapC1, initialGameState]
    decide

/-- C1 (amended): on a player-enemy collision the health partial update is
`max 0 (snapshot health − 1)` (decrement floored at 0), the enemy is
deactivated, and the status transitions to gameover iff the PRE-decrement
snapshot health is ≤ 1 — equivalently, iff the post-decrement health is
exactly 0 (the final conjunct records that equivalence). -/
theorem resolvePlayerEnemyHit_spec (snap : GameState) (e : GameEntity) (gs : GameState) :
    (resolvePlayerEnemyHit snap e gs).2.health = max 0 (snap.health - 1) ∧
    (resolvePlayerEnemyHit snap e gs).1.active = false ∧
    (resolvePlayerEnemyHit snap e gs).2.status =
      (if snap.health ≤ 1 then Status.gameover else gs.status) ∧
    (max 0 (snap.health - 1) = 0 ↔ snap.health ≤ 1) := by
  refine ⟨?_, rfl, ?_, by omega⟩
  · simp only [resolvePlayerEnemyHit]
    split <;> rfl
  · simp only [resolvePlayerEnemyHit]
    split <;> rfl

/-! ## C2: deactivated entities and same-frame collision tests -/

/-- A bullet whose position works out to the origin. -/
def bulletC2 : GameEntity := mkBullet 0 ⟨0, 0, -1⟩

/-- First enemy at the origin. -/
def enemyC2a : GameEntity := mkEnemy "enemy-c2a" ⟨0, 0, 0⟩ ⟨0, 0, 5⟩

/-- Second enemy, also at the origin. -/
def enemyC2b : GameEntity := mkEnemy "enemy-c2b" ⟨0, 0, 0⟩ ⟨0, 0, 5⟩

/-- checkCollision only reads position and radius, so deactivating the
bullet does not change any collision outcome. -/
theorem checkCollision_deactivated (b e : GameEntity) :
    checkCollision { b with active := false } e = checkCollision b e := rfl

/-- The bullet component of the bullet-enemy hit branch: only the active
flag is cleared. -/
theorem bulletEnemyHit_bullet (snap : GameState) (b e : GameEntity) (gs : GameState) :
    (bulletEnemyHit snap b e gs).1 = { b with active := false } := by
  simp only [bulletEnemyHit]
  split <;> rfl

/-- The enemy component of the bullet-enemy hit branch is enemyAfterHit. -/
theorem bulletEnemyHit_enemy (snap : GameState) (b e : GameEntity) (gs : GameState) :
    (bulletEnemyHit snap b e gs).2.1 = enemyAfterHit e := by
  simp only [bulletEnemyHit, enemyAfterHit]
  split <;> rfl

/-- C2, counterexample: the bullet is deactivated by its hit on the first
enemy, yet the second enemy of the same inner loop also loses one health —
the deactivated bullet was still tested (and scored a hit) against a
remaining enemy in the same frame, contradicting the claimed exclusion. -/
theorem claimC2_counterexample :
    checkCollision bulletC2 enemyC2a = true ∧
    (bulletVsEnemies initialGameState bulletC2 [enemyC2a] initialGameState).1.active = false ∧
    enemyC2b.health = 3 ∧
    ((bulletVsEnemies initialGameState bulletC2 [enemyC2a, enemyC2b]
        initialGameState).2.1.map (fun e => e.health)) = [2, 2] := by
  have hca : checkCollision bulletC2 enemyC2a = true := by
    simp only [checkCollision, decide_eq_true_eq, bulletC2, enemyC2a, mkBullet, mkEnemy, dist2]
    norm_num
  have hcb : ∀ b : GameEntity, b.position = bulletC2.position → b.radius = bulletC2.radius →
      checkCollision b enemyC2b = true := by
    intro b hpos hrad
    simp only [checkCollision, decide_eq_true_eq, hpos, hrad, bulletC2, enemyC2b, mkBullet,
      mkEnemy, dist2]
    norm_num
  have hcb' : checkCollision (bulletEnemyHit initialGameState bulletC2 enemyC2a
      initialGameState).1 enemyC2b = true := by
    rw [bulletEnemyHit_bullet]
    exact hcb _ rfl rfl
  refine ⟨hca, ?_, rfl, ?_⟩
  · simp only [bulletVsEnemies, hca, if_true, bulletEnemyHit_bullet]
  · simp only [bulletVsEnemies, hca, if_true, hcb', bulletEnemyHit_enemy, List.map_cons,
      List.map_nil]
    simp only [enemyAfterHit, enemyC2a, enemyC2b, mkEnemy]
    norm_num

/-- A bullet-enemy hit does not move the enemy. -/
theorem enemyAfterHit_position (e : GameEntity) :
    (enemyAfterHit e).position = e.position := by
  simp only [enemyAfterHit]
  split <;> rfl

/-- A bullet-enemy hit does not change the enemy's radius. -/
theorem enemyAfterHit_radius (e : GameEntity) :
    (enemyAfterHit e).radius = e.radius := by
  simp only [enemyAfterHit]
  split <;> rfl

/-- A bullet-enemy hit decrements the enemy's health by exactly one, with
no lower bound. -/
theorem enemyAfterHit_health (e : GameEntity) :
    (enemyAfterHit e).health = e.health - 1 := by
  simp only [enemyAfterHit]
  split <;> rfl

/-- C2 (amended): deactivation does not exclude an entity from the rest of
the frame's collision tests.  The inner bullet-enemy loop applies the hit
branch to EVERY enemy in the store that geometrically collides with the
bullet, regardless of the active flags mutated earlier in the same loop: a
bullet deactivated by one enemy still hits every later colliding enemy.
Deactivated entities are removed from their stores only by the next
frame's filter pass. -/
theorem bulletVsEnemies_tests_all (snap : GameState) :
    ∀ (enemies : List GameEntity) (b : GameEntity) (gs : GameState),
      (bulletVsEnemies snap b enemies gs).2.1 =
        enemies.map (fun e => if checkCollision b e then enemyAfterHit e else e) := by
  intro enemies
  induction enemies with
  | nil => intro b gs; rfl
  | cons e rest ih =>
    intro b gs
    by_cases h : checkCollision b e = true
    · simp only [bulletVsEnemies, h, if_true, List.map_cons]
      refine congrArg₂ _ (bulletEnemyHit_enemy snap b e gs) ?_
      rw [ih (bulletEnemyHit snap b e gs).1 (bulletEnemyHit snap b e gs).2.2,
        bulletEnemyHit_bullet]
      refine List.map_congr_left ?_
      intro x _
      rw [checkCollision_deactivated]
    · simp only [bulletVsEnemies, h, if_false, Bool.false_eq_true, List.map_cons]
      refine congrArg₂ _ rfl ?_
      exact ih b gs

/-! ## C5: health/radius invariants -/

/-- First bullet at the origin. -/
def bulletC5a : GameEntity := mkBullet 10 ⟨0, 0, -1⟩

/-- Second bullet, also at the origin. -/
def bulletC5b : GameEntity := mkBullet 20 ⟨0, 0, -1⟩

/-- An enemy at the origin with one health point left. -/
def enemyC5 : GameEntity :=
  { mkEnemy "enemy-c5" ⟨0, 0, 0⟩ ⟨0, 0, 5⟩ with health := 1 }

/-- C5, counterexample: two bullets hitting the same one-health enemy in
one frame drive its health to −1 — `enemy.health -= 1` has no floor and
the second bullet still hits the already-deactivated enemy, so the claimed
invariant health ∈ [0, maxHealth] fails after collision resolution. -/
theorem claimC5_counterexample :
    enemyC5.health = 1 ∧ 0 ≤ enemyC5.health ∧
    ((bulletsVsEnemies initialGameState [bulletC5a, bulletC5b] [enemyC5]
        initialGameState).2.1.map (fun e => e.health)) = [-1] ∧
    ((-1 : ℤ) < 0) := by
  have key : ∀ b e : GameEntity, b.position = (⟨0, 0, 0⟩ : Vec3) → b.radius = 1 / 10 →
      e.position = (⟨0, 0, 0⟩ : Vec3) → e.radius = 1 / 2 → checkCollision b e = true := by
    intro b e h1 h2 h3 h4
    simp only [checkCollision, decide_eq_true_eq, h1, h2, h3, h4, dist2]
    norm_num
  have hb1 : bulletC5a.position = (⟨0, 0, 0⟩ : Vec3) := by
    simp only [bulletC5a, mkBullet, Vec3.mk.injEq]
    norm_num
  have hb2 : bulletC5b.position = (⟨0, 0, 0⟩ : Vec3) := by
    simp only [bulletC5b, mkBullet, Vec3.mk.injEq]
    norm_num
  have h1 : checkCollision bulletC5a enemyC5 = true :=
    key _ _ hb1 rfl rfl rfl
  have h2 : checkCollision bulletC5b (enemyAfterHit enemyC5) = true := by
    refine key _ _ hb2 rfl ?_ ?_
    · rw [enemyAfterHit_position]
      rfl
    · rw [enemyAfterHit_radius]
      rfl
  refine ⟨rfl, by decide, ?_, by decide⟩
  simp only [bulletsVsEnemies, bulletVsEnemies, bulletEnemyHit_enemy, h1, h2, if_true,
    List.map_cons, List.map_nil, enemyAfterHit_health]
  norm_num [enemyC5]

/-- C5 (amended): the player-side clamps do hold — an enemy hit floors the
player's health at 0 and a power-up heal caps it at maxHealth, so player
health stays in [0, maxHealth] whenever the snapshot was; every entity the
game creates has radius > 0; but a bullet-enemy hit decrements the enemy's
health by exactly 1 with NO floor, which is how several bullets hitting the
same enemy in one frame can push its health below 0. -/
theorem entity_invariants_after_update (snap gs : GameState) (b e : GameEntity)
    (pos vel : Vec3) (idA idB : String) (now : ℤ)
    (h0 : 0 ≤ snap.health) (h1 : snap.health ≤ snap.maxHealth) :
    (0 ≤ (resolvePlayerEnemyHit snap e gs).2.health ∧
      (resolvePlayerEnemyHit snap e gs).2.health ≤ snap.maxHealth) ∧
    (0 ≤ (powerUpGrant snap now e gs).health ∧
      (powerUpGrant snap now e gs).health ≤ snap.maxHealth) ∧
    0 < (mkBullet now pos).radius ∧
    0 < (mkEnemy idA pos vel).radius ∧
    0 < (mkPowerUpEntity idB pos).radius ∧
    0 < (mkPlayerEntity snap pos).radius ∧
    (bulletEnemyHit snap b e gs).2.1.health = e.health - 1 := by
  have hh : (resolvePlayerEnemyHit snap e gs).2.health = max 0 (snap.health - 1) := by
    simp only [resolvePlayerEnemyHit]
    split <;> rfl
  refine ⟨⟨?_, ?_⟩, ⟨?_, ?_⟩, by norm_num [mkBullet], by norm_num [mkEnemy],
    by norm_num [mkPowerUpEntity], by norm_num [mkPlayerEntity], ?_⟩
  · rw [hh]; omega
  · rw [hh]; omega
  · simp only [powerUpGrant]; omega
  · simp only [powerUpGrant]; omega
  · simp only [bulletEnemyHit, enemyAfterHit]
    split <;> rfl

/-- Witness for C5 (amended) at a concrete input: the initial state's
snapshot (health 10 of 10). -/
theorem entity_invariants_after_update_witness :
    0 ≤ initialGameState.health ∧ initialGameState.health ≤ initialGameState.maxHealth ∧
    ((0 ≤ (resolvePlayerEnemyHit initialGameState enemyC1 initialGameState).2.health ∧
      (resolvePlayerEnemyHit initialGameState enemyC1 initialGameState).2.health ≤
        initialGameState.maxHealth) ∧
    (0 ≤ (powerUpGrant initialGameState 0 enemyC1 initialGameState).health ∧
      (powerUpGrant initialGameState 0 enemyC1 initialGameState).health ≤
        initialGameState.maxHealth) ∧
    0 < (mkBullet 0 ⟨0, 0, 0⟩).radius ∧
    0 < (mkEnemy "a" ⟨0, 0, 0⟩ ⟨0, 0, 0⟩).radius ∧
    0 < (mkPowerUpEntity "b" ⟨0, 0, 0⟩).radius ∧
    0 < (mkPlayerEntity initialGameState ⟨0, 0, 0⟩).radius ∧
    (bulletEnemyHit initialGameState bulletC2 enemyC1 initialGameState).2.1.health =
      enemyC1.health - 1) :=
  ⟨by decide, by decide,
    entity_invariants_after_update initialGameState initialGameState bulletC2 enemyC1
      ⟨0, 0, 0⟩ ⟨0, 0, 0⟩ "a" "b" 0 (by decide) (by decide)⟩

/-! ## C7: wave progression -/

/-- C7: the wave block fires exactly when the enemy store is empty, the
snapshot's enemiesRemaining is ≤ 0 and the accumulated wave timer
(previous value plus this frame's delta) exceeds 3 seconds; on firing, wave
and level each increase by exactly 1, enemiesRemaining is reset to 5 plus
the pre-increment wave, and the timer is reset to 0; otherwise the session
state is untouched. -/
theorem waveStep_spec (snap gs : GameState) (enemyCount : Nat) (waveTimer delta : ℚ)
    (hw : gs.wave = snap.wave) (hl : gs.level = snap.level) :
    ((waveStep snap enemyCount waveTimer delta gs).1.wave = gs.wave + 1 ↔
      (enemyCount = 0 ∧ snap.enemiesRemaining ≤ 0 ∧ 3 < waveTimer + delta)) ∧
    ((enemyCount = 0 ∧ snap.enemiesRemaining ≤ 0 ∧ 3 < waveTimer + delta) →
      (waveStep snap enemyCount waveTimer delta gs).1.wave = gs.wave + 1 ∧
      (waveStep snap enemyCount waveTimer delta gs).1.level = gs.level + 1 ∧
      (waveStep snap enemyCount waveTimer delta gs).1.enemiesRemaining = 5 + snap.wave ∧
      (waveStep snap enemyCount waveTimer delta gs).2 = 0) ∧
    (¬ (enemyCount = 0 ∧ snap.enemiesRemaining ≤ 0 ∧ 3 < waveTimer + delta) →
      (waveStep snap enemyCount waveTimer delta gs).1 = gs) := by
  have hfire : (enemyCount = 0 ∧ snap.enemiesRemaining ≤ 0 ∧ 3 < waveTimer + delta) →
      waveStep snap enemyCount waveTimer delta gs =
        ({ gs with
            wave := snap.wave + 1,
            level := snap.level + 1,
            enemiesRemaining := 5 + snap.wave }, 0) := by
    rintro ⟨h1, h2, h3⟩
    simp only [waveStep, if_pos (And.intro h1 h2), if_pos h3]
  have hnofire : ¬ (enemyCount = 0 ∧ snap.enemiesRemaining ≤ 0 ∧ 3 < waveTimer + delta) →
      (waveStep snap enemyCount waveTimer delta gs).1 = gs := by
    intro hn
    by_cases hc : enemyCount = 0 ∧ snap.enemiesRemaining ≤ 0
    · have h3 : ¬ 3 < waveTimer + delta := fun h => hn ⟨hc.1, hc.2, h⟩
      simp only [waveStep, if_pos hc, if_neg h3]
    · simp only [waveStep, if_neg hc]
  refine ⟨?_, ?_, hnofire⟩
  · by_cases hcond : enemyCount = 0 ∧ snap.enemiesRemaining ≤ 0 ∧ 3 < waveTimer + delta
    · rw [hfire hcond]
      constructor
      · intro _
        exact hcond
      · intro _
        show snap.wave + 1 = gs.wave + 1
        rw [hw]
    · constructor
      · intro habs
        exfalso
        rw [hnofire hcond] at habs
        omega
      · intro h
        exact absurd h hcond
  · intro hcond
    rw [hfire hcond]
    refine ⟨?_, ?_, rfl, rfl⟩
    · show snap.wave + 1 = gs.wave + 1
      rw [hw]
    · show snap.level + 1 = gs.level + 1
      rw [hl]

/-- The snapshot of the spec's wave-completion example: cleared wave
(enemiesRemaining 0) while playing. -/
def snapC7 : GameState :=
  { initialGameState with
      status := Status.playing,
      enemiesRemaining := 0 }

/-- Witness for C7 at the spec's concrete example: no active enemies,
enemiesRemaining 0, timer reaching 3.1 s; wave goes 1 → 2 and
enemiesRemaining resets to 5 + 1 = 6. -/
theorem waveStep_spec_witness :
    snapC7.wave = snapC7.wave ∧ snapC7.level = snapC7.level ∧
    (((waveStep snapC7 0 3 (1 / 10) snapC7).1.wave = snapC7.wave + 1 ↔
      ((0 : Nat) = 0 ∧ snapC7.enemiesRemaining ≤ 0 ∧ 3 < (3 : ℚ) + 1 / 10)) ∧
    (((0 : Nat) = 0 ∧ snapC7.enemiesRemaining ≤ 0 ∧ 3 < (3 : ℚ) + 1 / 10) →
      (waveStep snapC7 0 3 (1 / 10) snapC7).1.wave = snapC7.wave + 1 ∧
      (waveStep snapC7 0 3 (1 / 10) snapC7).1.level = snapC7.level + 1 ∧
      (waveStep snapC7 0 3 (1 / 10) snapC7).1.enemiesRemaining = 5 + snapC7.wave ∧
      (waveStep snapC7 0 3 (1 / 10) snapC7).2 = 0) ∧
    (¬ ((0 : Nat) = 0 ∧ snapC7.enemiesRemaining ≤ 0 ∧ 3 < (3 : ℚ) + 1 / 10) →
      (waveStep snapC7 0 3 (1 / 10) snapC7).1 = snapC7)) :=
  ⟨rfl, rfl, waveStep_spec snapC7 snapC7 0 3 (1 / 10) rfl rfl⟩

/-! ## C3: power-up expiry is never enforced

The PowerUp record carries `duration` and `startTime` precisely so that
expiry can be checked against `now - startTime`, and the spec requires
expired effects to be pruned from `activePowerUps` — but no statement in
the frame loop (or anywhere else during play) ever removes an element from
that list: the power-up grant is its only writer and it only appends to
the snapshot list.  The lemmas below track `activePowerUps` through every
session-state writer of the frame. -/

/-- The bullet-enemy hit branch never touches activePowerUps. -/
theorem bulletEnemyHit_apu (snap : GameState) (b e : GameEntity) (gs : GameState) :
    (bulletEnemyHit snap b e gs).2.2.activePowerUps = gs.activePowerUps := by
  simp only [bulletEnemyHit]
  split <;> rfl

/-- The inner bullet-enemy loop never touches activePowerUps. -/
theorem bulletVsEnemies_apu (snap : GameState) :
    ∀ (enemies : List GameEntity) (b : GameEntity) (gs : GameState),
      (bulletVsEnemies snap b enemies gs).2.2.activePowerUps = gs.activePowerUps := by
  intro enemies
  induction enemies with
  | nil => intro b gs; rfl
  | cons e rest ih =>
    intro b gs
    by_cases h : checkCollision b e = true
    · simp only [bulletVsEnemies, h, if_true]
      rw [ih, bulletEnemyHit_apu]
    · simp only [bulletVsEnemies, h, if_false, Bool.false_eq_true]
      exact ih b gs

/-- The outer bullet-enemy loop never touches activePowerUps. -/
theorem bulletsVsEnemies_apu (snap : GameState) :
    ∀ (bullets enemies : List GameEntity) (gs : GameState),
      (bulletsVsEnemies snap bullets enemies gs).2.2.activePowerUps = gs.activePowerUps := by
  intro bullets
  induction bullets with
  | nil => intro enemies gs; rfl
  | cons b rest ih =>
    intro enemies gs
    simp only [bulletsVsEnemies]
    rw [ih, bulletVsEnemies_apu]

/-- The player-enemy hit branch never touches activePowerUps. -/
theorem resolvePlayerEnemyHit_apu (snap : GameState) (e : GameEntity) (gs : GameState) :
    (resolvePlayerEnemyHit snap e gs).2.activePowerUps = gs.activePowerUps := by
  simp only [resolvePlayerEnemyHit]
  split <;> rfl

/-- The player-enemy loop never touches activePowerUps. -/
theorem playerEnemyCollisions_apu (snap : GameState) (player : GameEntity) :
    ∀ (enemies : List GameEntity) (gs : GameState),
      (playerEnemyCollisions snap player enemies gs).2.activePowerUps = gs.activePowerUps := by
  intro enemies
  induction enemies with
  | nil => intro gs; rfl
  | cons e rest ih =>
    intro gs
    by_cases h : checkCollision player e = true
    · simp only [playerEnemyCollisions, h, if_true]
      rw [ih, resolvePlayerEnemyHit_apu]
    · simp only [playerEnemyCollisions, h, if_false, Bool.false_eq_true]
      exact ih gs

/-- Elements of the snapshot's activePowerUps survive the player/power-up
loop: the only write is the grant, which rebuilds the list as the snapshot
list plus one appended effect. -/
theorem playerPowerUpCollisions_mem (snap : GameState) (now : ℤ) (player : GameEntity) :
    ∀ (n : Nat) (l : List GameEntity), l.length ≤ n →
      ∀ gs : GameState, (∀ q ∈ snap.activePowerUps, q ∈ gs.activePowerUps) →
        ∀ q ∈ snap.activePowerUps,
          q ∈ (playerPowerUpCollisions snap now player l gs).2.activePowerUps := by
  intro n
  induction n with
  | zero =>
    intro l hl gs hgs q hq
    have : l = [] := List.length_eq_zero.mp (Nat.le_zero.mp hl)
    subst this
    exact hgs q hq
  | succ n ih =>
    intro l hl gs hgs q hq
    cases l with
    | nil => exact hgs q hq
    | cons p rest =>
      by_cases h : checkCollision player p = true
      · cases rest with
        | nil =>
          simp only [playerPowerUpCollisions, h, if_true]
          simp only [powerUpGrant, List.mem_append]
          exact Or.inl hq
        | cons p2 rest' =>
          simp only [playerPowerUpCollisions, h, if_true]
          refine ih rest' ?_ (powerUpGrant snap now p gs) ?_ q hq
          · simp only [List.length_cons] at hl
            omega
          · intro q' hq'
            simp only [powerUpGrant, List.mem_append]
            exact Or.inl hq'
      · simp only [playerPowerUpCollisions, h, if_false, Bool.false_eq_true]
        refine ih rest ?_ gs hgs q hq
        simp only [List.length_cons] at hl
        omega

/-- The wave block never touches activePowerUps. -/
theorem waveStep_apu (snap : GameState) (enemyCount : Nat) (waveTimer delta : ℚ)
    (gs : GameState) :
    (waveStep snap enemyCount waveTimer delta gs).1.activePowerUps = gs.activePowerUps := by
  simp only [waveStep]
  split
  · split <;> rfl
  · rfl

/-- C3: an effect present in the frame-start snapshot's activePowerUps is
still present after the complete session-state update of the frame, for
every frame input — in particular for effects whose age `now - startTime`
already exceeds `duration`.  No code path prunes expired effects; the
active list is only ever appended to while playing. -/
theorem activePowerUps_never_pruned (snap : GameState) (playerPos : Vec3)
    (bullets enemies powerUps : List GameEntity) (delta : ℚ) (now : ℤ) (waveTimer : ℚ)
    (q : PowerUp) (hq : q ∈ snap.activePowerUps) :
    q ∈ (frameGsUpdate snap playerPos bullets enemies powerUps delta now
        waveTimer).1.activePowerUps := by
  simp only [frameGsUpdate]
  rw [waveStep_apu]
  refine playerPowerUpCollisions_mem snap now (mkPlayerEntity snap playerPos)
    powerUps.length powerUps le_rfl _ ?_ q hq
  intro q' hq'
  rw [playerEnemyCollisions_apu, bulletsVsEnemies_apu]
  exact hq'

/-- A shield effect granted at t = 0 ms (duration 10 s). -/
def expiredShield : PowerUp := mkShieldPowerUp "powerup-0" 0

/-- A playing snapshot carrying the (long-expired, as of t = 20000 ms)
shield effect. -/
def snapC3 : GameState :=
  { initialGameState with
      status := Status.playing,
      activePowerUps := [expiredShield] }

/-- Witness for C3 at the failing input: at Date.now() = 20000 ms the
shield's age (20000 ms) exceeds its duration (10 s = 10000 ms), yet a full
frame leaves it in activePowerUps. -/
theorem activePowerUps_never_pruned_witness :
    expiredShield ∈ snapC3.activePowerUps ∧
    expiredShield.duration * 1000 < ((20000 - expiredShield.startTime : ℤ) : ℚ) ∧
    expiredShield ∈ (frameGsUpdate snapC3 ⟨0, 0, 0⟩ [] [] [] (1 / 60) 20000
        0).1.activePowerUps :=
  ⟨List.mem_singleton.mpr rfl, by norm_num [expiredShield, mkShieldPowerUp],
    activePowerUps_never_pruned snapC3 ⟨0, 0, 0⟩ [] [] [] (1 / 60) 20000 0
      expiredShield (List.mem_singleton.mpr rfl)⟩

end SpaceShooter
